import Mathlib

/-!
Verification development for the ESP32 energy-meter MQTT firmware
(`src/Firmware/src/main.cpp`).  The definitions below are a shallow
embedding of the firmware's pure computational core: the instantaneous
power formula, the drained-pulse processing step of `loop()`, the decay
("Pulse time check") extrapolation, the connectivity guards, the SD-card
counter store (`writeConfigData` / `writeMeterDataFile` / `writeMeterData`
/ `setConfigurationDefaults`), the report scheduler
(`getsecondsToNextTimeCheck`), the MQTT topic channel-number parser
(`getIRQ_PIN_reference`) and the Google-Sheets reporter's return value.

Modelling conventions:
* C `unsigned long` timestamps and counters are modelled as `Nat`
  (wraparound is explicitly guarded against in the code paths modelled);
  `uint16_t` values are reduced `% 65536` where they are incremented.
* C `float` arithmetic in the power formula is modelled as exact rational
  (`Rat`) arithmetic; Arduino `round` (half away from zero) agrees with
  Mathlib `round` on the non-negative values produced here.
* SD-card side effects are modelled by an oracle `SDEnv` giving the
  success/failure of each open/write/mkdir operation, and by a trace of
  `SDOp` events recording every storage operation the code attempts.
* MQTT publication is modelled by returning the value that would be
  published (`Option Int`), gated by the `esp32Connected` flag.
-/

namespace EnergyMeterFirmware

/-- `#define MAX_NUMBER_OF_WRITES 65500` (main.cpp line 161). -/
def MAX_NUMBER_OF_WRITES : Nat := 65500

/-- `#define MIN_CONSUMPTION 25` (main.cpp line 156). -/
def MIN_CONSUMPTION : Int := 25

/-- `#define CONFIGURATON_VERSION 5` (main.cpp line 147). -/
def CONFIGURATON_VERSION : Int := 5

/-- `#define MAX_NO_OF_CHANNELS 8` (main.cpp line 160). -/
def MAX_NO_OF_CHANNELS : Nat := 8

/-- The instantaneous-power expression
`round(((float)(60*60*1000) / (float)intervalMs) / (float)pulse_per_kWh * 1000)`
used at main.cpp lines 659-662 (drained pulse) and 731-734 (decay check).
C `float` arithmetic is modelled as exact rational arithmetic. -/
def calcWattConsumption (intervalMs : Nat) (pulsePerKWh : Nat) : Int :=
  round (((60 * 60 * 1000 : Rat) / (intervalMs : Rat)) / (pulsePerKWh : Rat) * 1000)

/-- `struct meta_t` (main.cpp lines 264-268): per-channel timing state. -/
structure MetaT where
  pulseTimeStamp : Nat
  pulseLength : Nat
deriving DecidableEq

/-- `struct data_t` (main.cpp lines 271-275): per-channel counters. -/
structure DataT where
  pulseTotal : Nat
  pulseSubTotal : Nat
deriving DecidableEq

/-- Result of processing one drained pulse in `loop()`. -/
structure PulseResult where
  meta : MetaT
  data : DataT
  published : Option Int
deriving DecidableEq

/-- The drained-pulse branch of `loop()` (main.cpp lines 645-684) for one
channel: compute `watt_consumption` (0 when the prior timestamp is 0 or
not strictly before the drained timestamp `t`), store the new interval as
`pulseLength` (only when the rate was computed), unconditionally store `t`
as `pulseTimeStamp`, increment both counters once, and publish the state
JSON (carrying `watt_consumption`) when `esp32Connected`. -/
def processDrainedPulse (pulseTimeCorrection pulsePerKWh : Nat)
    (esp32Connected : Bool) (m : MetaT) (d : DataT) (t : Nat) : PulseResult :=
  let rateKnown := 0 < m.pulseTimeStamp ∧ m.pulseTimeStamp < t
  let watt : Int :=
    if rateKnown then
      calcWattConsumption (t - m.pulseTimeStamp + pulseTimeCorrection) pulsePerKWh
    else 0
  let len : Nat :=
    if rateKnown then t - m.pulseTimeStamp + pulseTimeCorrection else m.pulseLength
  { meta := { pulseTimeStamp := t, pulseLength := len }
    data := { pulseTotal := d.pulseTotal + 1, pulseSubTotal := d.pulseSubTotal + 1 }
    published := if esp32Connected then some watt else none }

/-- Result of one decay check. -/
structure DecayResult where
  meta : MetaT
  published : Option Int
deriving DecidableEq

/-- The "Pulse time check" decay branch of `loop()` (main.cpp lines
716-745) for one channel at loop time `timeStamp`: skipped when
`pulseLength` is zero; on a wrapped clock (`pulseTimeStamp > timeStamp`)
reset `pulseLength` and publish 0; otherwise when
`pulseTimeStamp + 2*pulseLength < timeStamp` recompute the power over the
elapsed time, clamp to 0 (resetting `pulseLength`) below
`MIN_CONSUMPTION`, publish `-1 * watt_consumption` when connected, and
finally double `pulseLength`. -/
def pulseTimeCheck (pulseTimeCorrection pulsePerKWh : Nat)
    (esp32Connected : Bool) (timeStamp : Nat) (m : MetaT) : DecayResult :=
  if 0 < m.pulseLength then
    if timeStamp < m.pulseTimeStamp then
      { meta := { m with pulseLength := 0 }
        published := if esp32Connected then some 0 else none }
    else if m.pulseTimeStamp + 2 * m.pulseLength < timeStamp then
      let watt : Int :=
        calcWattConsumption (timeStamp - m.pulseTimeStamp + pulseTimeCorrection) pulsePerKWh
      if watt < MIN_CONSUMPTION then
        -- watt_consumption = 0; pulseLength = 0; publish -1*0; pulseLength *= 2
        { meta := { m with pulseLength := 0 * 2 }
          published := if esp32Connected then some 0 else none }
      else
        { meta := { m with pulseLength := m.pulseLength * 2 }
          published := if esp32Connected then some (-1 * watt) else none }
    else { meta := m, published := none }
  else { meta := m, published := none }

/-- Iterate `pulseTimeCheck` on one channel over a list of successive loop
times, collecting every published value. -/
def pulseTimeCheckRun (pulseTimeCorrection pulsePerKWh : Nat)
    (esp32Connected : Bool) : List Nat → MetaT → MetaT × List Int
  | [], m => (m, [])
  | t :: ts, m =>
    let r := pulseTimeCheck pulseTimeCorrection pulsePerKWh esp32Connected t m
    let tail := pulseTimeCheckRun pulseTimeCorrection pulsePerKWh esp32Connected ts r.meta
    (tail.1, r.published.toList ++ tail.2)

/-! ### Connectivity guards (`loop()`, main.cpp lines 450-608) -/

/-- The loop state read by the two connectivity guards of `loop()`. -/
structure ConnState where
  IRQ_PINs_stored : Nat
  wifiConnected : Bool
  mqttConnected : Bool
  nowSec : Nat
  WiFiConnectAttempt : Nat
  WiFiConnectPostpone : Nat
  MQTTConnectAttempt : Nat
  MQTTConnectPostpone : Nat
deriving DecidableEq

/-- Guard of the WiFi-connect section (main.cpp lines 452-453):
`IRQ_PINs_stored == 0 and WiFi.status() != WL_CONNECTED and
sec() > WiFiConnectAttempt + WiFiConnectPostpone`.  A WiFi connect
attempt (`WiFi.begin`) is started in a pass exactly when this holds. -/
def wifiAttemptInitiated (s : ConnState) : Bool :=
  decide (s.IRQ_PINs_stored = 0) && !s.wifiConnected &&
    decide (s.WiFiConnectAttempt + s.WiFiConnectPostpone < s.nowSec)

/-- Guard of the MQTT-connect section (main.cpp lines 558 and 569):
`IRQ_PINs_stored == 0 and WiFi.status() == WL_CONNECTED` and, inside,
`!mqttClient.connected() and sec() > MQTTConnectAttempt +
MQTTConnectPostpone`.  An MQTT broker connect attempt is started in a
pass exactly when this holds. -/
def mqttAttemptInitiated (s : ConnState) : Bool :=
  decide (s.IRQ_PINs_stored = 0) && s.wifiConnected && !s.mqttConnected &&
    decide (s.MQTTConnectAttempt + s.MQTTConnectPostpone < s.nowSec)

/-! ### Counter store (`writeConfigData`, `writeMeterDataFile`,
`writeMeterData`, `setConfigurationDefaults`; main.cpp lines 802-938) -/

/-- Trace events: each SD-card operation the firmware attempts. -/
inductive SDOp where
  | openConfig : SDOp
  | writeConfig : SDOp
  | mkdirDataFileSet : Nat → SDOp
  | openDataFile : Nat → Nat → SDOp
  | writeDataFile : Nat → Nat → SDOp
  | openWritesFile : Nat → SDOp
  | writeWritesFile : Nat → SDOp
deriving DecidableEq

/-- Oracle for the outcome of each SD-card operation. -/
structure SDEnv where
  openConfigOk : Bool
  writeConfigOk : Bool
  mkdirOk : Nat → Bool
  openDataOk : Nat → Nat → Bool
  writeDataOk : Nat → Nat → Bool
  openWritesOk : Nat → Bool

/-- The store-related globals of main.cpp: `interfaceConfig` (struct
`config_t`, lines 255-261), `numberOfWrites`, `SD_Failed`, `errorIndex`
and the in-memory per-channel counters `meterData`. -/
structure StoreState where
  structureVersion : Int
  pulseTimeCorrection : Nat
  dataFileSetNumber : Nat
  pulse_per_kWh : List Nat
  numberOfWrites : Nat
  SD_Failed : Bool
  errorIndex : Nat
  meterData : List DataT
deriving DecidableEq

/-- `writeConfigData()` (main.cpp lines 802-821): open the configuration
file (failure: `SD_Failed`, error bit 1) and write `interfaceConfig`
(failure: `SD_Failed`, error bit 2). -/
def writeConfigData (env : SDEnv) (s : StoreState) : StoreState × List SDOp :=
  if env.openConfigOk then
    if env.writeConfigOk then
      (s, [SDOp.openConfig, SDOp.writeConfig])
    else
      ({ s with SD_Failed := true, errorIndex := s.errorIndex ||| 2 ^ 2 },
        [SDOp.openConfig, SDOp.writeConfig])
  else
    ({ s with SD_Failed := true, errorIndex := s.errorIndex ||| 2 ^ 1 },
      [SDOp.openConfig])

/-- `writeMeterDataFile(datafileNumber)` (main.cpp lines 826-845): open the
channel's data file in the current data file set (failure: bit 4) and
write `meterData[datafileNumber]` (failure: bit 5). -/
def writeMeterDataFile (env : SDEnv) (s : StoreState) (n : Nat) : StoreState × List SDOp :=
  let g := s.dataFileSetNumber
  if env.openDataOk g n then
    if env.writeDataOk g n then
      (s, [SDOp.openDataFile g n, SDOp.writeDataFile g n])
    else
      ({ s with SD_Failed := true, errorIndex := s.errorIndex ||| 2 ^ 5 },
        [SDOp.openDataFile g n, SDOp.writeDataFile g n])
  else
    ({ s with SD_Failed := true, errorIndex := s.errorIndex ||| 2 ^ 4 },
      [SDOp.openDataFile g n])

/-- The `for ( uint8_t ii = 0; ii < PRIVATE_NO_OF_CHANNELS; ii++)
writeMeterDataFile(ii);` loop of `writeMeterData` (main.cpp lines 865-866). -/
def writeAllMeterDataFiles (env : SDEnv) : StoreState → List Nat → StoreState × List SDOp
  | s, [] => (s, [])
  | s, c :: rest =>
    let r1 := writeMeterDataFile env s c
    let r2 := writeAllMeterDataFiles env r1.1 rest
    (r2.1, r1.2 ++ r2.2)

/-- The rotation block of `writeMeterData` (main.cpp lines 853-867), run
on the state whose write counter was already post-incremented: increment
`dataFileSetNumber` (`uint16_t`), create the new directory (failure:
`SD_Failed`, bit 3), and on success rewrite the configuration, reset the
write counter to 0 and write every channel's data file into the new set. -/
def rotateDataFileSet (env : SDEnv) (nCh : Nat) (s0 : StoreState) :
    StoreState × List SDOp :=
  let s1 : StoreState :=
    { s0 with dataFileSetNumber := (s0.dataFileSetNumber + 1) % 65536 }
  if env.mkdirOk s1.dataFileSetNumber then
    let rc := writeConfigData env s1
    let s2 : StoreState := { rc.1 with numberOfWrites := 0 }
    let rw := writeAllMeterDataFiles env s2 (List.range nCh)
    (rw.1, SDOp.mkdirDataFileSet s1.dataFileSetNumber :: (rc.2 ++ rw.2))
  else
    ({ s1 with SD_Failed := true, errorIndex := s1.errorIndex ||| 2 ^ 3 },
      [SDOp.mkdirDataFileSet s1.dataFileSetNumber])

/-- The branch of `writeMeterData` on
`numberOfWrites++ > MAX_NUMBER_OF_WRITES` (main.cpp lines 853-871): the
comparison reads the old counter value, the increment is `uint16_t`. -/
def writeMeterDataBranch (env : SDEnv) (nCh : Nat) (s : StoreState) (n : Nat) :
    StoreState × List SDOp :=
  if MAX_NUMBER_OF_WRITES < s.numberOfWrites then
    rotateDataFileSet env nCh { s with numberOfWrites := (s.numberOfWrites + 1) % 65536 }
  else
    writeMeterDataFile env { s with numberOfWrites := (s.numberOfWrites + 1) % 65536 } n

/-- The tail of `writeMeterData` (main.cpp lines 873-886): rewrite the
write-counter file of the current data file set (open failure:
`SD_Failed`, bit 6; the write result itself is not checked). -/
def writeWritesCounterFile (env : SDEnv) (s : StoreState) : StoreState × List SDOp :=
  if env.openWritesOk s.dataFileSetNumber then
    (s, [SDOp.openWritesFile s.dataFileSetNumber, SDOp.writeWritesFile s.dataFileSetNumber])
  else
    ({ s with SD_Failed := true, errorIndex := s.errorIndex ||| 2 ^ 6 },
      [SDOp.openWritesFile s.dataFileSetNumber])

/-- `writeMeterData(datafileNumber)` (main.cpp lines 851-887): the
rotate-or-write branch followed by the write-counter file update. -/
def writeMeterData (env : SDEnv) (nCh : Nat) (s : StoreState) (n : Nat) :
    StoreState × List SDOp :=
  let r1 := writeMeterDataBranch env nCh s n
  let r2 := writeWritesCounterFile env r1.1
  (r2.1, r1.2 ++ r2.2)

/-- Per-pulse persistence call site (main.cpp lines 674-677):
`if ( !SD_Failed ) writeMeterData( IRQ_PIN_index);`. -/
def perPulsePersist (env : SDEnv) (nCh : Nat) (s : StoreState) (n : Nat) :
    StoreState × List SDOp :=
  if s.SD_Failed then (s, []) else writeMeterData env nCh s n

/-- Zero one channel's period subtotal in the in-memory counters. -/
def zeroSubTotal (l : List DataT) (c : Nat) : List DataT :=
  l.set c { l.getD c ⟨0, 0⟩ with pulseSubTotal := 0 }

/-- The subtotal-reset loop (main.cpp lines 775-780 and 1429-1434):
for each channel, `pulseSubTotal = 0` and then
`if ( !SD_Failed ) writeMeterData( ii);`. -/
def subtotalResetLoop (env : SDEnv) (nCh : Nat) : StoreState → List Nat → StoreState × List SDOp
  | s, [] => (s, [])
  | s, c :: rest =>
    let s1 : StoreState := { s with meterData := zeroSubTotal s.meterData c }
    let r1 := if s1.SD_Failed then (s1, ([] : List SDOp)) else writeMeterData env nCh s1 c
    let r2 := subtotalResetLoop env nCh r1.1 rest
    (r2.1, r1.2 ++ r2.2)

/-- The whole subtotal reset (schedule-triggered or commanded). -/
def subtotalResetPersist (env : SDEnv) (nCh : Nat) (s : StoreState) : StoreState × List SDOp :=
  subtotalResetLoop env nCh s (List.range nCh)

/-- The `MQTT_SUFFIX_CONFIG` branch of `mqttCallback` (main.cpp lines
1406-1419): optionally update `pulseTimeCorrection` from the payload, then
call `writeConfigData()` unconditionally (no `SD_Failed` guard). -/
def mqttConfigCallback (env : SDEnv) (s : StoreState) (hasPulscorrKey : Bool)
    (newCorrection : Nat) : StoreState × List SDOp :=
  let s1 : StoreState :=
    if hasPulscorrKey then { s with pulseTimeCorrection := newCorrection } else s
  writeConfigData env s1

/-- Body of the generation-scan loop of `setConfigurationDefaults`
(main.cpp lines 913-923): `numberOfFilesExists` is recomputed as the
number of channels whose data file exists in data file set `g`
(0 when `SD_Failed`). -/
def countDataFilesExists (fileExists : Nat → Nat → Bool) (sdFailed : Bool)
    (nCh g : Nat) : Nat :=
  if sdFailed then 0
  else ((List.range nCh).filter (fun c => fileExists g c)).length

/-- The scan loop of `setConfigurationDefaults` (main.cpp lines 910-924):
`uint8_t numberOfFilesExists = 1;
for ( interfaceConfig.dataFileSetNumber = 0; numberOfFilesExists == 0;
interfaceConfig.dataFileSetNumber++) { numberOfFilesExists = 0; ... }`.
The C loop continues while `numberOfFilesExists == 0`; fuel 65536 bounds
the `uint16_t` loop counter. -/
def findDataFileSetNumberLoop (fileExists : Nat → Nat → Bool) (sdFailed : Bool)
    (nCh : Nat) : Nat → Nat → Nat → Nat
  | 0, _, g => g
  | fuel + 1, flag, g =>
    if flag = 0 then
      findDataFileSetNumberLoop fileExists sdFailed nCh fuel
        (countDataFilesExists fileExists sdFailed nCh g) (g + 1)
    else g

/-- Entry to the scan loop: `numberOfFilesExists` starts at 1 and
`dataFileSetNumber` at 0. -/
def findDataFileSetNumber (fileExists : Nat → Nat → Bool) (sdFailed : Bool)
    (nCh : Nat) : Nat :=
  findDataFileSetNumberLoop fileExists sdFailed nCh 65536 1 0

/-- `setConfigurationDefaults()` (main.cpp lines 904-938): set the
version tag to `CONFIGURATON_VERSION * 100 + PRIVATE_NO_OF_CHANNELS`,
reset `pulseTimeCorrection` to 0, run the generation-scan loop, load the
compiled per-channel defaults, and (unless `SD_Failed`) remove the old
configuration file and rewrite it. -/
def setConfigurationDefaults (env : SDEnv) (fileExists : Nat → Nat → Bool)
    (defaults : List Nat) (nCh : Nat) (s : StoreState) : StoreState × List SDOp :=
  let s1 : StoreState :=
    { s with
      structureVersion := CONFIGURATON_VERSION * 100 + (nCh : Int)
      pulseTimeCorrection := 0
      dataFileSetNumber := findDataFileSetNumber fileExists s.SD_Failed nCh
      pulse_per_kWh := defaults }
  if !s1.SD_Failed then writeConfigData env s1 else (s1, [])

/-- An all-successful SD oracle, for concrete witnesses. -/
def envAllOk : SDEnv :=
  { openConfigOk := true
    writeConfigOk := true
    mkdirOk := fun _ => true
    openDataOk := fun _ _ => true
    writeDataOk := fun _ _ => true
    openWritesOk := fun _ => true }

/-! ### Report scheduler (`getsecondsToNextTimeCheck`, main.cpp lines 1128-1157) -/

/-- `getsecondsToNextTimeCheck()` (main.cpp lines 1128-1157), as a
function of the local time read from `getLocalTime` and of the
`SCHEDULE_HOUR` / `SCHEDULE_MINUTE` target.  Returns 0 when the current
hour and minute equal the target; otherwise adds a full day (`dogn`)
when the target time-of-day is before the current one and returns
half the remaining seconds plus 15.  All C arithmetic here is `int`
and, for valid times, non-negative. -/
def getsecondsToNextTimeCheck (tmHour tmMin tmSec scHour scMin : Int) : Int :=
  if tmHour = scHour ∧ tmMin = scMin then 0
  else
    let dogn : Int :=
      if scHour * 3600 + scMin * 60 < tmHour * 3600 + tmMin * 60 + tmSec then
        24 * 60 * 60
      else 0
    ((scHour * 3600 + scMin * 60 + dogn) - (tmHour * 3600 + tmMin * 60 + tmSec)) / 2 + 15

/-- Modelled from the claim's words: "it returns half of the seconds
remaining until the target, where a full day (86400 seconds) is added to
the remainder when the target time-of-day has already passed today". -/
def claimSecondsToNextTimeCheck (tmHour tmMin tmSec scHour scMin : Int) : Int :=
  if tmHour = scHour ∧ tmMin = scMin then 0
  else
    let remaining : Int :=
      scHour * 3600 + scMin * 60 - (tmHour * 3600 + tmMin * 60 + tmSec)
    (if remaining < 0 then remaining + 86400 else remaining) / 2

/-! ### MQTT topic channel parser (`getIRQ_PIN_reference`, main.cpp lines
1017-1028) and its use in `mqttCallback` (lines 1388-1405) -/

/-- One step `result = result * 10 + (topic[..] - '0')` of the parser:
`result` is `uint8_t`, the character arithmetic is C `int`. -/
def irqDigitStep (result : Nat) (c : Char) : Nat :=
  (((result : Int) * 10 + ((c.toNat : Int) - 48)) % 256).toNat

/-- `getIRQ_PIN_reference(topic)` (main.cpp lines 1017-1028).  The topic
is modelled as the character at each index of the C string.  The loop
`while(topic[startIndex + i] != '/' && i < 2)` runs at most twice and is
unrolled. -/
def getIRQ_PIN_reference (topic : Nat → Char) (startIndex : Nat) : Nat :=
  let c0 := topic startIndex
  if c0 = '/' then 0
  else
    let r1 := irqDigitStep 0 c0
    let c1 := topic (startIndex + 1)
    if c1 = '/' then r1
    else irqDigitStep r1 c1

/-- The channel index `mqttCallback` computes before dispatching on the
topic suffix (main.cpp lines 1391-1397): `getIRQ_PIN_reference` when the
topic starts with `MQTT_PREFIX`, otherwise 0. -/
def mqttCallbackChannelIndex (topic : Nat → Char) (startIndex : Nat)
    (startsWithEnergyHead : Bool) : Nat :=
  if startsWithEnergyHead then getIRQ_PIN_reference topic startIndex else 0

/-- The `MQTT_SUFFIX_TOTAL_TRESHOLD` branch of `mqttCallback` (main.cpp
lines 1399-1405) writes `meterData[IRQ_PIN_reference].pulseTotal` and
reads `interfaceConfig.pulse_per_kWh[IRQ_PIN_reference]`; both arrays
have `PRIVATE_NO_OF_CHANNELS` elements.  This returns the index of those
accesses (`none` when the branch is not taken). -/
def thresholdBranchAccessIndex (topic : Nat → Char) (startIndex : Nat)
    (startsWithEnergyHead endsWithThreshold : Bool) : Option Nat :=
  if endsWithThreshold then
    some (mqttCallbackChannelIndex topic startIndex startsWithEnergyHead)
  else none

/-- The concrete topic string `energy/monitor_ESP32_48E72997D320/99/threshold`. -/
def topic99Chars : List Char :=
  String.toList "energy/monitor_ESP32_48E72997D320/99/threshold"

/-- The same topic viewed as C-string memory (NUL beyond the end). -/
def topic99 : Nat → Char := fun i => topic99Chars.getD i (Char.ofNat 0)

/-- `String(MQTT_PREFIX + mqttDeviceNameWithMac + "/").length()` for the
device name of the documentation examples. -/
def topic99StartIndex : Nat :=
  (String.toList "energy/monitor_ESP32_48E72997D320/").length

/-! ### Google Sheets reporter (`updateGoogleSheets`, main.cpp lines
1036-1083) and its boot-time call site (lines 490-494) -/

/-- Observable outcome of `updateGoogleSheets`. -/
structure GSOutcome where
  statusPublished : Bool
  returned : Bool
deriving DecidableEq

/-- `updateGoogleSheets(messageIndex)` (main.cpp lines 1036-1083), as a
function of the value returned by `http.GET()`.  Both final `if`s use
`=` (assignment), not `==`: `if ( httpCode = http.GET())` publishes the
status message whenever the GET result is non-zero, and
`if ( httpCode = 200) return true; else return false;` assigns 200 and
therefore always returns `true`. -/
def updateGoogleSheets (httpGetResult : Int) : GSOutcome :=
  let httpCode : Int := httpGetResult
  let statusPublished := decide (httpCode ≠ 0)
  let httpCode : Int := 200
  { statusPublished := statusPublished
    returned := decide (httpCode ≠ 0) }

/-- The boot-time report call site (main.cpp lines 490-494):
`if (updateGoogleSheets( GoogleSheetMessageIndex)) GoogleSheetMessageIndex = 2;`
(message index 1 appends ",PowerUp", index 2 appends ",WiFiReconnect"). -/
def nextGoogleSheetMessageIndex (messageIndex : Nat) (httpGetResult : Int) : Nat :=
  if (updateGoogleSheets httpGetResult).returned then 2 else messageIndex

/-- Concrete store state for the C5 failing input: a configuration whose
version tag mismatches, on an SD card where every data file set already
holds readable records. -/
def c5State : StoreState :=
  { structureVersion := 0, pulseTimeCorrection := 77, dataFileSetNumber := 9,
    pulse_per_kWh := [600, 600], numberOfWrites := 0, SD_Failed := false,
    errorIndex := 0, meterData := [⟨0, 0⟩, ⟨0, 0⟩] }

/-- An SD card on which every channel's data file of every data file set
is readable. -/
def fileExistsAll : Nat → Nat → Bool := fun _ _ => true

/-- Concrete store state for the C6 witness: the write counter has
exceeded the rotation ceiling. -/
def c6State : StoreState :=
  { structureVersion := 501, pulseTimeCorrection := 3, dataFileSetNumber := 0,
    pulse_per_kWh := [1000], numberOfWrites := 65501, SD_Failed := false,
    errorIndex := 0, meterData := [⟨7, 2⟩] }

/-- Concrete store state for C7: a storage fault has already occurred
(`SD_Failed` set, error bit 0 recorded). -/
def c7FailedState : StoreState :=
  { structureVersion := 501, pulseTimeCorrection := 0, dataFileSetNumber := 0,
    pulse_per_kWh := [1000], numberOfWrites := 10, SD_Failed := true,
    errorIndex := 1, meterData := [⟨5, 1⟩] }

/-- The `config_t` record as read back from the SD card at boot. -/
structure LoadedConfig where
  structureVersion : Int
  pulseTimeCorrection : Nat
  dataFileSetNumber : Nat
  pulse_per_kWh : List Nat
deriving DecidableEq

/-- The boot-time configuration read of `setup()` (main.cpp lines
382-391): run only when `!SD_Failed`; when the open succeeds the record
is read into `interfaceConfig` (the read result is never checked); when
the open fails nothing at all happens — no error bit is set and
`SD_Failed` is not raised. -/
def setupReadConfig (openOk : Bool) (c : LoadedConfig) (s : StoreState) : StoreState :=
  if s.SD_Failed then s
  else if openOk then
    { s with structureVersion := c.structureVersion,
             pulseTimeCorrection := c.pulseTimeCorrection,
             dataFileSetNumber := c.dataFileSetNumber,
             pulse_per_kWh := c.pulse_per_kWh }
  else s

/-- The boot-time write-counter read of `setup()` (main.cpp lines
410-419): a failed open or a short read just resets `numberOfWrites` to
0 — no error bit is set and `SD_Failed` is not raised. -/
def setupReadNumberOfWrites (openOk readFullOk : Bool) (loaded : Nat)
    (s : StoreState) : StoreState :=
  if openOk then
    if readFullOk then { s with numberOfWrites := loaded }
    else { s with numberOfWrites := 0 }
  else { s with numberOfWrites := 0 }

/-- One channel of the boot-time data-file read loop of `setup()`
(main.cpp lines 422-434): a short read zeroes the channel's counters, a
failed open leaves them as initialised (`&&` short-circuits) — in
neither case is an error bit set or `SD_Failed` raised. -/
def setupReadMeterDataFile (openOk readFullOk : Bool) (loaded : DataT)
    (s : StoreState) (c : Nat) : StoreState :=
  if openOk then
    if readFullOk then { s with meterData := s.meterData.set c loaded }
    else { s with meterData := s.meterData.set c ⟨0, 0⟩ }
  else s

/-- A fault-free boot state for the C7 counterexample. -/
def bootCleanState : StoreState :=
  { structureVersion := 0, pulseTimeCorrection := 0, dataFileSetNumber := 0,
    pulse_per_kWh := [1000], numberOfWrites := 5, SD_Failed := false,
    errorIndex := 0, meterData := [⟨0, 0⟩] }

/-!
## Helper lemmas
-/

theorem pulseTimeCheck_len_zero (corr ppu : Nat) (connected : Bool) (t : Nat)
    (m : MetaT) (h : m.pulseLength = 0) :
    pulseTimeCheck corr ppu connected t m = { meta := m, published := none } := by
  simp [pulseTimeCheck, h]

theorem pulseTimeCheckRun_len_zero (corr ppu : Nat) (connected : Bool)
    (ts : List Nat) (m : MetaT) (h : m.pulseLength = 0) :
    pulseTimeCheckRun corr ppu connected ts m = (m, []) := by
  induction ts with
  | nil => simp [pulseTimeCheckRun]
  | cons t ts ih =>
    simp [pulseTimeCheckRun, pulseTimeCheck_len_zero corr ppu connected t m h, ih]

/-!
## Claim theorems
-/

/-- C1: on a drained pulse for a channel at timestamp `t`, when the prior
timestamp is non-zero and strictly before `t` the published instantaneous
power is `round((3600000 / (t - prior + calibration)) / pulses_per_kWh * 1000)`
(3600 for a 1000 ms interval, `pulse_per_kWh = 1000`, calibration 0);
when the prior timestamp is zero or `t` is not strictly after it the rate
computation is skipped and 0 is published, and in either case the stored
timestamp baseline becomes `t`. -/
theorem C1_drainedPulsePower (corr ppu : Nat) (connected : Bool) (m : MetaT)
    (d : DataT) (t : Nat) :
    ((0 < m.pulseTimeStamp ∧ m.pulseTimeStamp < t) →
      (processDrainedPulse corr ppu connected m d t).published =
        (if connected then
          some (calcWattConsumption (t - m.pulseTimeStamp + corr) ppu)
        else none)) ∧
    (¬ (0 < m.pulseTimeStamp ∧ m.pulseTimeStamp < t) →
      (processDrainedPulse corr ppu connected m d t).published =
        (if connected then some 0 else none)) ∧
    (processDrainedPulse corr ppu connected m d t).meta.pulseTimeStamp = t ∧
    calcWattConsumption (1000 + 0) 1000 = 3600 := by
  refine ⟨fun h => ?_, fun h => ?_, ?_, ?_⟩
  · simp [processDrainedPulse, h]
  · simp [processDrainedPulse, h]
  · simp [processDrainedPulse]
  · norm_num [calcWattConsumption, round_eq]

theorem C1_drainedPulsePower_witness :
    (0 < (1000 : Nat) ∧ (1000 : Nat) < 2000) ∧
    (processDrainedPulse 0 1000 true ⟨1000, 0⟩ ⟨0, 0⟩ 2000).published = some 3600 ∧
    (processDrainedPulse 0 1000 true ⟨1000, 0⟩ ⟨0, 0⟩ 2000).meta.pulseTimeStamp = 2000 := by
  have h := C1_drainedPulsePower 0 1000 true ⟨1000, 0⟩ ⟨0, 0⟩ 2000
  refine ⟨by decide, ?_, h.2.2.1⟩
  rw [h.1 (by decide)]
  norm_num [calcWattConsumption, round_eq]

/-- C2: in a loop pass where `IRQ_PINs_stored` is non-zero when the
connectivity sections run, neither a WiFi connect attempt nor an MQTT
broker connect attempt is initiated. -/
theorem C2_pulsePriorityGate (s : ConnState) (h : s.IRQ_PINs_stored ≠ 0) :
    wifiAttemptInitiated s = false ∧ mqttAttemptInitiated s = false := by
  simp [wifiAttemptInitiated, mqttAttemptInitiated, h]

theorem C2_pulsePriorityGate_witness :
    ({ IRQ_PINs_stored := 4, wifiConnected := false, mqttConnected := false,
       nowSec := 100, WiFiConnectAttempt := 0, WiFiConnectPostpone := 0,
       MQTTConnectAttempt := 0, MQTTConnectPostpone := 0 } : ConnState).IRQ_PINs_stored ≠ 0 ∧
    wifiAttemptInitiated
      { IRQ_PINs_stored := 4, wifiConnected := false, mqttConnected := false,
        nowSec := 100, WiFiConnectAttempt := 0, WiFiConnectPostpone := 0,
        MQTTConnectAttempt := 0, MQTTConnectPostpone := 0 } = false ∧
    mqttAttemptInitiated
      { IRQ_PINs_stored := 4, wifiConnected := false, mqttConnected := false,
        nowSec := 100, WiFiConnectAttempt := 0, WiFiConnectPostpone := 0,
        MQTTConnectAttempt := 0, MQTTConnectPostpone := 0 } = false := by
  refine ⟨by decide, ?_⟩
  exact C2_pulsePriorityGate _ (by decide)

/-- C3: the decay check on a channel with non-zero stored interval `L`,
timestamp not in the future, and `now > t + 2*L`, and whose recomputed
estimate is at or above `MIN_CONSUMPTION`, publishes the estimate
`round((3600000 / (now - t + calibration)) / pulse_per_kWh * 1000)` with
a negative sign and doubles the stored interval; the estimate is 1799
for 2001 ms of silence at `pulse_per_kWh = 1000`, calibration 0. -/
theorem C3_decayEstimate (corr ppu : Nat) (m : MetaT) (now : Nat)
    (hL : 0 < m.pulseLength)
    (hpast : ¬ now < m.pulseTimeStamp)
    (hfire : m.pulseTimeStamp + 2 * m.pulseLength < now)
    (hfloor : ¬ calcWattConsumption (now - m.pulseTimeStamp + corr) ppu < MIN_CONSUMPTION) :
    (pulseTimeCheck corr ppu true now m).published =
      some (-1 * calcWattConsumption (now - m.pulseTimeStamp + corr) ppu) ∧
    (pulseTimeCheck corr ppu true now m).meta.pulseLength = 2 * m.pulseLength ∧
    calcWattConsumption (2001 + 0) 1000 = 1799 := by
  refine ⟨?_, ?_, ?_⟩
  · simp [pulseTimeCheck, hL, hpast, hfire, hfloor]
  · have h1 : (pulseTimeCheck corr ppu true now m).meta.pulseLength = m.pulseLength * 2 := by
      simp [pulseTimeCheck, hL, hpast, hfire, hfloor]
    omega
  · norm_num [calcWattConsumption, round_eq]

theorem C3_decayEstimate_witness :
    (pulseTimeCheck 0 1000 true 7001 ⟨5000, 1000⟩).published = some (-1799) ∧
    (pulseTimeCheck 0 1000 true 7001 ⟨5000, 1000⟩).meta.pulseLength = 2000 := by
  have h := C3_decayEstimate 0 1000 ⟨5000, 1000⟩ 7001 (by decide) (by decide) (by decide)
    (by norm_num [calcWattConsumption, round_eq, MIN_CONSUMPTION])
  constructor
  · rw [h.1]; norm_num [calcWattConsumption, round_eq]
  · rw [h.2.1]; decide

/-- C4: a decay-check pass whose estimate is below `MIN_CONSUMPTION`
publishes exactly 0 and resets the stored interval to zero; afterwards no
sequence of decay checks publishes anything or changes the timing state,
until a new real pulse (prior timestamp non-zero and strictly before the
new pulse) re-establishes a non-zero stored interval. -/
theorem C4_decayFloorClamp (corr ppu : Nat) (m : MetaT) (now t : Nat)
    (ts : List Nat) (d : DataT)
    (hL : 0 < m.pulseLength)
    (hpast : ¬ now < m.pulseTimeStamp)
    (hfire : m.pulseTimeStamp + 2 * m.pulseLength < now)
    (hfloor : calcWattConsumption (now - m.pulseTimeStamp + corr) ppu < MIN_CONSUMPTION) :
    (pulseTimeCheck corr ppu true now m).published = some 0 ∧
    (pulseTimeCheck corr ppu true now m).meta.pulseLength = 0 ∧
    (∀ (connected : Bool) (m0 : MetaT), m0.pulseLength = 0 →
      pulseTimeCheckRun corr ppu connected ts m0 = (m0, [])) ∧
    (∀ m1 : MetaT, 0 < m1.pulseTimeStamp → m1.pulseTimeStamp < t →
      0 < (processDrainedPulse corr ppu true m1 d t).meta.pulseLength) := by
  refine ⟨?_, ?_, fun connected m0 h0 => pulseTimeCheckRun_len_zero corr ppu connected ts m0 h0,
    fun m1 h1 h2 => ?_⟩
  · simp [pulseTimeCheck, hL, hpast, hfire, hfloor]
  · simp [pulseTimeCheck, hL, hpast, hfire, hfloor]
  · have hlen : (processDrainedPulse corr ppu true m1 d t).meta.pulseLength =
        t - m1.pulseTimeStamp + corr := by
      simp [processDrainedPulse, h1, h2]
    omega

theorem C4_decayFloorClamp_witness :
    (pulseTimeCheck 0 1000 true 151000 ⟨1000, 1000⟩).published = some 0 ∧
    (pulseTimeCheck 0 1000 true 151000 ⟨1000, 1000⟩).meta.pulseLength = 0 ∧
    pulseTimeCheckRun 0 1000 true [151100, 152000] ⟨151000, 0⟩ = (⟨151000, 0⟩, []) ∧
    0 < (processDrainedPulse 0 1000 true ⟨151000, 0⟩ ⟨0, 0⟩ 200000).meta.pulseLength := by
  have h := C4_decayFloorClamp 0 1000 ⟨1000, 1000⟩ 151000 200000 [151100, 152000] ⟨0, 0⟩
    (by decide) (by decide) (by decide)
    (by norm_num [calcWattConsumption, round_eq, MIN_CONSUMPTION])
  exact ⟨h.1, h.2.1, h.2.2.1 true ⟨151000, 0⟩ rfl, h.2.2.2 ⟨151000, 0⟩ (by decide) (by decide)⟩

/-!
## Store helper lemmas
-/

theorem writeConfigData_frame (env : SDEnv) (s : StoreState) :
    (writeConfigData env s).1.meterData = s.meterData ∧
    (writeConfigData env s).1.numberOfWrites = s.numberOfWrites ∧
    (writeConfigData env s).1.dataFileSetNumber = s.dataFileSetNumber ∧
    (writeConfigData env s).1.pulseTimeCorrection = s.pulseTimeCorrection := by
  by_cases h1 : env.openConfigOk <;> by_cases h2 : env.writeConfigOk <;>
    simp [writeConfigData, h1, h2]

theorem writeMeterDataFile_frame (env : SDEnv) (s : StoreState) (n : Nat) :
    (writeMeterDataFile env s n).1.meterData = s.meterData ∧
    (writeMeterDataFile env s n).1.numberOfWrites = s.numberOfWrites ∧
    (writeMeterDataFile env s n).1.dataFileSetNumber = s.dataFileSetNumber ∧
    (writeMeterDataFile env s n).1.pulseTimeCorrection = s.pulseTimeCorrection := by
  by_cases h1 : env.openDataOk s.dataFileSetNumber n <;>
    by_cases h2 : env.writeDataOk s.dataFileSetNumber n <;>
    simp [writeMeterDataFile, h1, h2]

theorem writeAllMeterDataFiles_frame (env : SDEnv) :
    ∀ (cs : List Nat) (s : StoreState),
      (writeAllMeterDataFiles env s cs).1.meterData = s.meterData ∧
      (writeAllMeterDataFiles env s cs).1.numberOfWrites = s.numberOfWrites ∧
      (writeAllMeterDataFiles env s cs).1.dataFileSetNumber = s.dataFileSetNumber ∧
      (writeAllMeterDataFiles env s cs).1.pulseTimeCorrection = s.pulseTimeCorrection
  | [], s => by simp [writeAllMeterDataFiles]
  | c :: rest, s => by
    have h1 := writeMeterDataFile_frame env s c
    have ih := writeAllMeterDataFiles_frame env rest (writeMeterDataFile env s c).1
    refine ⟨?_, ?_, ?_, ?_⟩ <;>
      simp [writeAllMeterDataFiles, ih.1, ih.2.1, ih.2.2.1, ih.2.2.2,
        h1.1, h1.2.1, h1.2.2.1, h1.2.2.2]

theorem orMono_trans {a b c : Nat} (h1 : a ||| b = b) (h2 : b ||| c = c) :
    a ||| c = c := by
  rw [← h2, ← Nat.or_assoc, h1]

theorem writeConfigData_errMono (env : SDEnv) (s : StoreState) :
    s.errorIndex ||| (writeConfigData env s).1.errorIndex =
      (writeConfigData env s).1.errorIndex := by
  by_cases h1 : env.openConfigOk <;> by_cases h2 : env.writeConfigOk <;>
    simp [writeConfigData, h1, h2, ← Nat.or_assoc, Nat.or_self]

theorem writeMeterDataFile_errMono (env : SDEnv) (s : StoreState) (n : Nat) :
    s.errorIndex ||| (writeMeterDataFile env s n).1.errorIndex =
      (writeMeterDataFile env s n).1.errorIndex := by
  by_cases h1 : env.openDataOk s.dataFileSetNumber n <;>
    by_cases h2 : env.writeDataOk s.dataFileSetNumber n <;>
    simp [writeMeterDataFile, h1, h2, ← Nat.or_assoc, Nat.or_self]

theorem writeAllMeterDataFiles_errMono (env : SDEnv) :
    ∀ (cs : List Nat) (s : StoreState),
      s.errorIndex ||| (writeAllMeterDataFiles env s cs).1.errorIndex =
        (writeAllMeterDataFiles env s cs).1.errorIndex
  | [], s => by simp [writeAllMeterDataFiles, Nat.or_self]
  | c :: rest, s => by
    have h1 := writeMeterDataFile_errMono env s c
    have ih := writeAllMeterDataFiles_errMono env rest (writeMeterDataFile env s c).1
    have hcomp := orMono_trans h1 ih
    simpa [writeAllMeterDataFiles] using hcomp

theorem writeWritesCounterFile_errMono (env : SDEnv) (s : StoreState) :
    s.errorIndex ||| (writeWritesCounterFile env s).1.errorIndex =
      (writeWritesCounterFile env s).1.errorIndex := by
  by_cases h1 : env.openWritesOk s.dataFileSetNumber <;>
    simp [writeWritesCounterFile, h1, ← Nat.or_assoc, Nat.or_self]

theorem rotateDataFileSet_errMono (env : SDEnv) (nCh : Nat) (s0 : StoreState) :
    s0.errorIndex ||| (rotateDataFileSet env nCh s0).1.errorIndex =
      (rotateDataFileSet env nCh s0).1.errorIndex := by
  by_cases hmk : env.mkdirOk ((s0.dataFileSetNumber + 1) % 65536)
  · have h1 := writeConfigData_errMono env
      { s0 with dataFileSetNumber := (s0.dataFileSetNumber + 1) % 65536 }
    have h2 := writeAllMeterDataFiles_errMono env (List.range nCh)
      { (writeConfigData env
          { s0 with dataFileSetNumber := (s0.dataFileSetNumber + 1) % 65536 }).1 with
        numberOfWrites := 0 }
    have hcomp := orMono_trans h1 h2
    simpa [rotateDataFileSet, hmk] using hcomp
  · simp [rotateDataFileSet, hmk, ← Nat.or_assoc, Nat.or_self]

theorem writeMeterData_errMono (env : SDEnv) (nCh : Nat) (s : StoreState) (n : Nat) :
    s.errorIndex ||| (writeMeterData env nCh s n).1.errorIndex =
      (writeMeterData env nCh s n).1.errorIndex := by
  have hA : s.errorIndex ||| (writeMeterDataBranch env nCh s n).1.errorIndex =
      (writeMeterDataBranch env nCh s n).1.errorIndex := by
    by_cases hrot : MAX_NUMBER_OF_WRITES < s.numberOfWrites
    · have h := rotateDataFileSet_errMono env nCh
        { s with numberOfWrites := (s.numberOfWrites + 1) % 65536 }
      simpa [writeMeterDataBranch, hrot] using h
    · have h := writeMeterDataFile_errMono env
        { s with numberOfWrites := (s.numberOfWrites + 1) % 65536 } n
      simpa [writeMeterDataBranch, hrot] using h
  have hB := writeWritesCounterFile_errMono env (writeMeterDataBranch env nCh s n).1
  exact orMono_trans hA hB

theorem writeConfigData_ops_ne_nil (env : SDEnv) (s : StoreState) :
    (writeConfigData env s).2 ≠ [] := by
  by_cases h1 : env.openConfigOk <;> by_cases h2 : env.writeConfigOk <;>
    simp [writeConfigData, h1, h2]

theorem writeWritesCounterFile_frame (env : SDEnv) (s : StoreState) :
    (writeWritesCounterFile env s).1.meterData = s.meterData ∧
    (writeWritesCounterFile env s).1.numberOfWrites = s.numberOfWrites ∧
    (writeWritesCounterFile env s).1.dataFileSetNumber = s.dataFileSetNumber ∧
    (writeWritesCounterFile env s).1.pulseTimeCorrection = s.pulseTimeCorrection := by
  by_cases h1 : env.openWritesOk s.dataFileSetNumber <;> simp [writeWritesCounterFile, h1]

theorem rotateDataFileSet_success (env : SDEnv) (nCh : Nat) (s0 : StoreState)
    (hmk : env.mkdirOk ((s0.dataFileSetNumber + 1) % 65536) = true) :
    (rotateDataFileSet env nCh s0).1.dataFileSetNumber =
      (s0.dataFileSetNumber + 1) % 65536 ∧
    (rotateDataFileSet env nCh s0).1.numberOfWrites = 0 ∧
    (rotateDataFileSet env nCh s0).1.meterData = s0.meterData ∧
    (rotateDataFileSet env nCh s0).1.pulseTimeCorrection = s0.pulseTimeCorrection := by
  have hcfg := writeConfigData_frame env
    { s0 with dataFileSetNumber := (s0.dataFileSetNumber + 1) % 65536 }
  have hall := writeAllMeterDataFiles_frame env (List.range nCh)
    { (writeConfigData env
        { s0 with dataFileSetNumber := (s0.dataFileSetNumber + 1) % 65536 }).1 with
      numberOfWrites := 0 }
  have hres : (rotateDataFileSet env nCh s0).1 =
      (writeAllMeterDataFiles env
        { (writeConfigData env
            { s0 with dataFileSetNumber := (s0.dataFileSetNumber + 1) % 65536 }).1 with
          numberOfWrites := 0 } (List.range nCh)).1 := by
    simp [rotateDataFileSet, hmk]
  refine ⟨?_, ?_, ?_, ?_⟩
  · rw [hres, hall.2.2.1]; simp [hcfg.2.2.1]
  · rw [hres, hall.2.1]
  · rw [hres, hall.1]; simp [hcfg.1]
  · rw [hres, hall.2.2.2]; simp [hcfg.2.2.2]

theorem rotateDataFileSet_ops (env : SDEnv) (nCh : Nat) (s0 : StoreState)
    (hmk : env.mkdirOk ((s0.dataFileSetNumber + 1) % 65536) = true)
    (hoc : env.openConfigOk = true) (hwc : env.writeConfigOk = true) :
    SDOp.mkdirDataFileSet ((s0.dataFileSetNumber + 1) % 65536) ∈
      (rotateDataFileSet env nCh s0).2 ∧
    SDOp.writeConfig ∈ (rotateDataFileSet env nCh s0).2 := by
  simp [rotateDataFileSet, hmk, writeConfigData, hoc, hwc]

theorem subtotalResetLoop_failed (env : SDEnv) (nCh : Nat) :
    ∀ (cs : List Nat) (s : StoreState), s.SD_Failed = true →
      (subtotalResetLoop env nCh s cs).2 = [] ∧
      (subtotalResetLoop env nCh s cs).1.SD_Failed = true
  | [], s, hf => by simp [subtotalResetLoop, hf]
  | c :: rest, s, hf => by
    have ih := subtotalResetLoop_failed env nCh rest
      { s with meterData := zeroSubTotal s.meterData c } hf
    rw [hf] at ih
    simp [subtotalResetLoop, hf, ih.1, ih.2]

/-- C5: evaluation of `setConfigurationDefaults` at a failing input.  On
an SD card where data file set 0 already holds readable counters records
for every channel (`fileExistsAll`), the reset path still selects data
file set 0: the scan loop's counter is initialised to 1 but the loop
only continues while it equals 0, so the scan never executes.
Calibration and the pulses-per-kWh table are reset as claimed. -/
theorem C5_resetSelectsOccupiedGeneration :
    (setConfigurationDefaults envAllOk fileExistsAll [1000, 1000] 2
      c5State).1.dataFileSetNumber = 0 ∧
    fileExistsAll 0 0 = true ∧
    (setConfigurationDefaults envAllOk fileExistsAll [1000, 1000] 2
      c5State).1.pulseTimeCorrection = 0 ∧
    (setConfigurationDefaults envAllOk fileExistsAll [1000, 1000] 2
      c5State).1.pulse_per_kWh = [1000, 1000] ∧
    (setConfigurationDefaults envAllOk fileExistsAll [1000, 1000] 2
      c5State).1.structureVersion = 502 := by
  decide

/-- C6: a `writeMeterData` call made while the write counter exceeds
`MAX_NUMBER_OF_WRITES` (with the new directory creation and the
configuration write succeeding) rolls the store to the next data file
set: the data file set number is incremented, the write counter ends at
0, the `mkdir` of the new set and the configuration write both appear in
the operation trace, and the in-memory per-channel counters and the
calibration are unchanged. -/
theorem C6_generationRotation (env : SDEnv) (nCh : Nat) (s : StoreState) (n : Nat)
    (hrot : MAX_NUMBER_OF_WRITES < s.numberOfWrites)
    (hgen : s.dataFileSetNumber + 1 < 65536)
    (hmk : env.mkdirOk (s.dataFileSetNumber + 1) = true)
    (hoc : env.openConfigOk = true)
    (hwc : env.writeConfigOk = true) :
    (writeMeterData env nCh s n).1.dataFileSetNumber = s.dataFileSetNumber + 1 ∧
    (writeMeterData env nCh s n).1.numberOfWrites = 0 ∧
    SDOp.mkdirDataFileSet (s.dataFileSetNumber + 1) ∈ (writeMeterData env nCh s n).2 ∧
    SDOp.writeConfig ∈ (writeMeterData env nCh s n).2 ∧
    (writeMeterData env nCh s n).1.meterData = s.meterData ∧
    (writeMeterData env nCh s n).1.pulseTimeCorrection = s.pulseTimeCorrection := by
  have hmod : (s.dataFileSetNumber + 1) % 65536 = s.dataFileSetNumber + 1 :=
    Nat.mod_eq_of_lt hgen
  have hbr : writeMeterDataBranch env nCh s n =
      rotateDataFileSet env nCh { s with numberOfWrites := (s.numberOfWrites + 1) % 65536 } := by
    simp [writeMeterDataBranch, hrot]
  have hmk0 : env.mkdirOk
      (({ s with numberOfWrites := (s.numberOfWrites + 1) % 65536 } :
        StoreState).dataFileSetNumber + 1 % 65536) = true := by
    simpa [hmod] using hmk
  have hrotc := rotateDataFileSet_success env nCh
    { s with numberOfWrites := (s.numberOfWrites + 1) % 65536 } (by simpa [hmod] using hmk)
  have hops := rotateDataFileSet_ops env nCh
    { s with numberOfWrites := (s.numberOfWrites + 1) % 65536 } (by simpa [hmod] using hmk) hoc hwc
  have hwf := writeWritesCounterFile_frame env (writeMeterDataBranch env nCh s n).1
  refine ⟨?_, ?_, ?_, ?_, ?_, ?_⟩
  · show (writeWritesCounterFile env (writeMeterDataBranch env nCh s n).1).1.dataFileSetNumber =
      s.dataFileSetNumber + 1
    rw [hwf.2.2.1, hbr, hrotc.1]
    simpa using hmod
  · show (writeWritesCounterFile env (writeMeterDataBranch env nCh s n).1).1.numberOfWrites = 0
    rw [hwf.2.1, hbr, hrotc.2.1]
  · show SDOp.mkdirDataFileSet (s.dataFileSetNumber + 1) ∈
      (writeMeterDataBranch env nCh s n).2 ++
        (writeWritesCounterFile env (writeMeterDataBranch env nCh s n).1).2
    apply List.mem_append_left
    rw [hbr]
    simpa [hmod] using hops.1
  · show SDOp.writeConfig ∈
      (writeMeterDataBranch env nCh s n).2 ++
        (writeWritesCounterFile env (writeMeterDataBranch env nCh s n).1).2
    apply List.mem_append_left
    rw [hbr]
    exact hops.2
  · show (writeWritesCounterFile env (writeMeterDataBranch env nCh s n).1).1.meterData =
      s.meterData
    rw [hwf.1, hbr, hrotc.2.2.1]
  · show (writeWritesCounterFile env (writeMeterDataBranch env nCh s n).1).1.pulseTimeCorrection =
      s.pulseTimeCorrection
    rw [hwf.2.2.2, hbr, hrotc.2.2.2]

theorem C6_generationRotation_witness :
    MAX_NUMBER_OF_WRITES < c6State.numberOfWrites ∧
    (writeMeterData envAllOk 1 c6State 0).1.dataFileSetNumber = c6State.dataFileSetNumber + 1 ∧
    (writeMeterData envAllOk 1 c6State 0).1.numberOfWrites = 0 ∧
    SDOp.mkdirDataFileSet (c6State.dataFileSetNumber + 1) ∈ (writeMeterData envAllOk 1 c6State 0).2 ∧
    SDOp.writeConfig ∈ (writeMeterData envAllOk 1 c6State 0).2 ∧
    (writeMeterData envAllOk 1 c6State 0).1.meterData = c6State.meterData ∧
    (writeMeterData envAllOk 1 c6State 0).1.pulseTimeCorrection = c6State.pulseTimeCorrection := by
  have h := C6_generationRotation envAllOk 1 c6State 0 (by decide) (by decide) rfl rfl rfl
  exact ⟨by decide, h.1, h.2.1, h.2.2.1, h.2.2.2.1, h.2.2.2.2.1, h.2.2.2.2.2⟩

/-- C7 counterexample: two concrete divergences from the claim.  First,
a failed boot-time read sets no bit in the Sticky Error Set: a failed
configuration-file open, a failed write-counter read and a failed
data-file read all leave `errorIndex` at 0 and `SD_Failed` false,
refuting "every storage read/write/create failure sets the
corresponding bit".  Second, with a storage fault already recorded, an
incoming calibration-update command still opens and writes the
configuration file, refuting "once any storage fault has occurred no
further storage write attempt is made by any operation". -/
theorem C7_readFailureNoBitAndWriteAfterFault :
    (setupReadConfig false ⟨501, 0, 0, [1000]⟩ bootCleanState).errorIndex = 0 ∧
    (setupReadConfig false ⟨501, 0, 0, [1000]⟩ bootCleanState).SD_Failed = false ∧
    (setupReadNumberOfWrites false false 7 bootCleanState).errorIndex = 0 ∧
    (setupReadNumberOfWrites false false 7 bootCleanState).SD_Failed = false ∧
    (setupReadMeterDataFile false false ⟨0, 0⟩ bootCleanState 0).errorIndex = 0 ∧
    (setupReadMeterDataFile false false ⟨0, 0⟩ bootCleanState 0).SD_Failed = false ∧
    c7FailedState.SD_Failed = true ∧
    (mqttConfigCallback envAllOk c7FailedState true 25).2 =
      [SDOp.openConfig, SDOp.writeConfig] := by
  decide

/-- C7 amended: every storage write/create failure sets its sticky
error bit — configuration open (bit 1) and write (bit 2), data-file open
(bit 4) and write (bit 5), directory creation (bit 3) and write-counter
file open (bit 6) — while the boot-time read operations set no bit and
never raise `SD_Failed`; no store operation ever clears a previously set
bit; once `SD_Failed` is set, per-pulse persistence and subtotal-reset
persistence make no storage write attempt at all, but a
calibration/configuration command still attempts the configuration
write. -/
theorem C7_stickyErrorsMemoryOnly (env : SDEnv) (nCh : Nat) (s : StoreState)
    (n newCorrection : Nat) (hasPulscorrKey : Bool) (hf : s.SD_Failed = true) :
    (perPulsePersist env nCh s n).2 = [] ∧
    (subtotalResetPersist env nCh s).2 = [] ∧
    (mqttConfigCallback env s hasPulscorrKey newCorrection).2 ≠ [] ∧
    (∀ s1 : StoreState,
      s1.errorIndex ||| (writeMeterData env nCh s1 n).1.errorIndex =
        (writeMeterData env nCh s1 n).1.errorIndex) ∧
    (∀ s1 : StoreState,
      s1.errorIndex ||| (writeConfigData env s1).1.errorIndex =
        (writeConfigData env s1).1.errorIndex) ∧
    (∀ s1 : StoreState, env.openConfigOk = false →
      (writeConfigData env s1).1.errorIndex ||| 2 ^ 1 =
        (writeConfigData env s1).1.errorIndex) ∧
    (∀ s1 : StoreState, env.openConfigOk = true → env.writeConfigOk = false →
      (writeConfigData env s1).1.errorIndex ||| 2 ^ 2 =
        (writeConfigData env s1).1.errorIndex) ∧
    (∀ s1 : StoreState, env.mkdirOk ((s1.dataFileSetNumber + 1) % 65536) = false →
      (rotateDataFileSet env nCh s1).1.errorIndex ||| 2 ^ 3 =
        (rotateDataFileSet env nCh s1).1.errorIndex) ∧
    (∀ s1 : StoreState, env.openDataOk s1.dataFileSetNumber n = false →
      (writeMeterDataFile env s1 n).1.errorIndex ||| 2 ^ 4 =
        (writeMeterDataFile env s1 n).1.errorIndex) ∧
    (∀ s1 : StoreState, env.openDataOk s1.dataFileSetNumber n = true →
      env.writeDataOk s1.dataFileSetNumber n = false →
      (writeMeterDataFile env s1 n).1.errorIndex ||| 2 ^ 5 =
        (writeMeterDataFile env s1 n).1.errorIndex) ∧
    (∀ s1 : StoreState, env.openWritesOk s1.dataFileSetNumber = false →
      (writeWritesCounterFile env s1).1.errorIndex ||| 2 ^ 6 =
        (writeWritesCounterFile env s1).1.errorIndex) ∧
    (∀ (openOk : Bool) (c : LoadedConfig) (s1 : StoreState),
      (setupReadConfig openOk c s1).errorIndex = s1.errorIndex ∧
      (setupReadConfig openOk c s1).SD_Failed = s1.SD_Failed) ∧
    (∀ (openOk readFullOk : Bool) (w : Nat) (s1 : StoreState),
      (setupReadNumberOfWrites openOk readFullOk w s1).errorIndex = s1.errorIndex ∧
      (setupReadNumberOfWrites openOk readFullOk w s1).SD_Failed = s1.SD_Failed) ∧
    (∀ (openOk readFullOk : Bool) (d : DataT) (c : Nat) (s1 : StoreState),
      (setupReadMeterDataFile openOk readFullOk d s1 c).errorIndex = s1.errorIndex ∧
      (setupReadMeterDataFile openOk readFullOk d s1 c).SD_Failed = s1.SD_Failed) := by
  refine ⟨?_, ?_, ?_, ?_, ?_, ?_, ?_, ?_, ?_, ?_, ?_, ?_, ?_, ?_⟩
  · simp [perPulsePersist, hf]
  · exact (subtotalResetLoop_failed env nCh (List.range nCh) s hf).1
  · exact writeConfigData_ops_ne_nil env _
  · exact fun s1 => writeMeterData_errMono env nCh s1 n
  · exact fun s1 => writeConfigData_errMono env s1
  · intro s1 h
    simp [writeConfigData, h, Nat.or_assoc, Nat.or_self]
  · intro s1 h1 h2
    simp [writeConfigData, h1, h2, Nat.or_assoc, Nat.or_self]
  · intro s1 h
    simp [rotateDataFileSet, h, Nat.or_assoc, Nat.or_self]
  · intro s1 h
    simp [writeMeterDataFile, h, Nat.or_assoc, Nat.or_self]
  · intro s1 h1 h2
    simp [writeMeterDataFile, h1, h2, Nat.or_assoc, Nat.or_self]
  · intro s1 h
    simp [writeWritesCounterFile, h, Nat.or_assoc, Nat.or_self]
  · intro openOk c s1
    unfold setupReadConfig
    split_ifs <;> simp
  · intro openOk readFullOk w s1
    unfold setupReadNumberOfWrites
    split_ifs <;> simp
  · intro openOk readFullOk d c s1
    unfold setupReadMeterDataFile
    split_ifs <;> simp

theorem C7_stickyErrorsMemoryOnly_witness :
    c7FailedState.SD_Failed = true ∧
    (perPulsePersist envAllOk 1 c7FailedState 0).2 = [] ∧
    (subtotalResetPersist envAllOk 1 c7FailedState).2 = [] ∧
    (mqttConfigCallback envAllOk c7FailedState true 25).2 ≠ [] := by
  have h := C7_stickyErrorsMemoryOnly envAllOk 1 c7FailedState 0 25 true rfl
  exact ⟨rfl, h.1, h.2.1, h.2.2.1⟩

/-- C8 counterexample: at local time 00:00:00 with target 00:01 the
scheduler returns 45, not half of the 60 remaining seconds (30): the
code adds 15 after halving, which the claim omits. -/
theorem C8_schedulerNotExactHalf :
    getsecondsToNextTimeCheck 0 0 0 0 1 = 45 ∧
    claimSecondsToNextTimeCheck 0 0 0 0 1 = 30 ∧
    getsecondsToNextTimeCheck 0 0 0 0 1 ≠ claimSecondsToNextTimeCheck 0 0 0 0 1 := by
  decide

/-- C8 amended: for every valid local time and target, the scheduler
returns 0 exactly when the current hour and minute equal the target hour
and minute; otherwise it returns 15 plus half of the seconds remaining
until the target, adding a full day when the target time-of-day has
already passed today. -/
theorem C8_schedulerHalfPlusFifteen (tmHour tmMin tmSec scHour scMin : Int)
    (hh0 : 0 ≤ tmHour) (hh : tmHour < 24) (hm0 : 0 ≤ tmMin) (hm : tmMin < 60)
    (hs0 : 0 ≤ tmSec) (hs : tmSec < 60) (hscH : 0 ≤ scHour) (hscM : 0 ≤ scMin) :
    (getsecondsToNextTimeCheck tmHour tmMin tmSec scHour scMin = 0 ↔
      (tmHour = scHour ∧ tmMin = scMin)) ∧
    (¬ (tmHour = scHour ∧ tmMin = scMin) →
      getsecondsToNextTimeCheck tmHour tmMin tmSec scHour scMin =
        claimSecondsToNextTimeCheck tmHour tmMin tmSec scHour scMin + 15) := by
  constructor
  · constructor
    · intro h0
      by_contra hne
      simp only [getsecondsToNextTimeCheck, if_neg hne] at h0
      split_ifs at h0 <;> omega
    · intro h
      simp only [getsecondsToNextTimeCheck, if_pos h]
  · intro hne
    simp only [getsecondsToNextTimeCheck, claimSecondsToNextTimeCheck, if_neg hne]
    split_ifs <;> omega

theorem C8_schedulerHalfPlusFifteen_witness :
    ¬ ((6 : Int) = 7 ∧ (30 : Int) = 0) ∧
    getsecondsToNextTimeCheck 6 30 0 7 0 =
      claimSecondsToNextTimeCheck 6 30 0 7 0 + 15 := by
  have h := C8_schedulerHalfPlusFifteen 6 30 0 7 0 (by decide) (by decide) (by decide)
    (by decide) (by decide) (by decide) (by decide) (by decide)
  exact ⟨by decide, h.2 (by decide)⟩

/-- C9: the channel number parsed from a per-channel "threshold" topic
is at most two digits (so up to 99) and is never checked against the
configured channel count; the callback uses it to index the per-channel
counter and pulses-per-kWh arrays, so the well-formed topic
`energy/monitor_ESP32_48E72997D320/99/threshold` makes the callback
access index 99, out of bounds for every configured channel count
(at most `MAX_NO_OF_CHANNELS` = 8). -/
theorem C9_thresholdChannelUnvalidated (nCh : Nat) (hch : nCh ≤ MAX_NO_OF_CHANNELS) :
    getIRQ_PIN_reference topic99 topic99StartIndex = 99 ∧
    thresholdBranchAccessIndex topic99 topic99StartIndex true true = some 99 ∧
    ¬ (99 < nCh) ∧
    (∀ (topic : Nat → Char) (startIndex d1 d2 : Nat), d1 < 10 → d2 < 10 →
      (topic startIndex).toNat = 48 + d1 → (topic (startIndex + 1)).toNat = 48 + d2 →
      getIRQ_PIN_reference topic startIndex = 10 * d1 + d2) := by
  refine ⟨by decide, by decide, ?_, ?_⟩
  · have h8 : nCh ≤ 8 := hch
    omega
  · intro topic startIndex d1 d2 hd1 hd2 h0 h1
    have hslash : ('/' : Char).toNat = 47 := rfl
    have hc0 : topic startIndex ≠ '/' := fun h => by rw [h, hslash] at h0; omega
    have hc1 : topic (startIndex + 1) ≠ '/' := fun h => by rw [h, hslash] at h1; omega
    simp only [getIRQ_PIN_reference, irqDigitStep, hc0, hc1, if_false, h0, h1]
    push_cast
    omega

theorem C9_thresholdChannelUnvalidated_witness :
    (8 : Nat) ≤ MAX_NO_OF_CHANNELS ∧
    getIRQ_PIN_reference topic99 topic99StartIndex = 99 ∧
    thresholdBranchAccessIndex topic99 topic99StartIndex true true = some 99 ∧
    ¬ (99 < 8) := by
  have h := C9_thresholdChannelUnvalidated 8 (by decide)
  exact ⟨by decide, h.1, h.2.1, h.2.2.1⟩

/-- C10: `updateGoogleSheets` returns true for every `http.GET()`
outcome — its final check `if ( httpCode = 200)` assigns 200 to the
status variable instead of comparing — so its boot-time caller
unconditionally replaces report-tag index 1 ("PowerUp") with index 2
("WiFiReconnect") after the first attempt, whether or not it succeeded. -/
theorem C10_googleSheetsAlwaysTrue (httpGetResult : Int) :
    (updateGoogleSheets httpGetResult).returned = true ∧
    nextGoogleSheetMessageIndex 1 httpGetResult = 2 := by
  constructor <;> norm_num [updateGoogleSheets, nextGoogleSheetMessageIndex]

end EnergyMeterFirmware
